import Mathlib

/-!
# A shallow embedding of Sonorous's grading core

This file embeds, in Lean 4, the timing/grading core of the Sonorous rhythm
game engine: the chart object model (`src/format/obj.rs`) and the play-state
machinery of `Player` (`src/engine/player.rs`), and proves properties of the
embedded operations.

Conventions of the embedding:

* Rust `f64` values are modelled as `ℚ`.  All the comparisons and arithmetic
  performed by the embedded code are exact threshold comparisons, additions and
  multiplications, which `ℚ` models faithfully up to floating-point rounding of
  the inputs.  The `f64 -> int` cast (truncation toward zero) is `toIntTrunc`
  and the `f64 -> uint` cast (on the nonnegative values the code feeds it) is
  `toUintTrunc`.
* Rust `uint`/`int` are `ℕ`/`ℤ`.
* Fixed-size arrays indexed by lanes, grades or channels are modelled as total
  functions from `ℕ` (resp. `Grade`).
* `fail!`/`assert!` (panics) are modelled by `Option` results or by exposing
  the asserted boolean in the result, as noted at each definition.
* Side effects on the audio mixer are modelled by accumulating a list of
  play requests (`SoundEff`); the real `play_sound` is a no-op when the sound
  resource failed to load, which is outside this core.
* `format/pointer.rs` and `format/timeline.rs` are not among the sources;
  every definition standing in for them carries a doc comment starting with
  `Modelled from the spec:`.
-/

namespace Sonorous

/-! ## Casts from `f64` as used by the Rust sources -/

/-- Rust `as int` on an `f64`: truncation toward zero. -/
def toIntTrunc (q : ℚ) : ℤ :=
  if 0 ≤ q then ⌊q⌋ else ⌈q⌉

/-- Rust `as uint` on an `f64`; every value the sources cast this way is
nonnegative, where the cast is truncation (= floor). -/
def toUintTrunc (q : ℚ) : ℕ :=
  (⌊q⌋).toNat

/-! ## Chart object model (`src/format/obj.rs`) -/

/-- A damage value upon the MISS grade (`enum Damage`). -/
inductive Damage where
  /-- Damage specified as a fraction of the full gauge. -/
  | GaugeDamage (r : ℚ)
  /-- Instant death. -/
  | InstantDeath
deriving DecidableEq

/-- A duration from a particular point (`enum Duration`), used by `Stop`. -/
inductive Duration where
  | Seconds (secs : ℚ)
  | Measures (measures : ℚ)
deriving DecidableEq

/-- A slice of an image (`struct ImageSlice`). -/
structure ImageSlice where
  sx : ℚ
  sy : ℚ
  dx : ℚ
  dy : ℚ
  w : ℚ
  h : ℚ
deriving DecidableEq

/-- A reference to a BGA target (`enum BGARef`); image references are `ℕ`. -/
inductive BGARef where
  | BlankBGA
  | ImageBGA (iref : ℕ)
  | SlicedImageBGA (iref : ℕ) (slice : ImageSlice)
deriving DecidableEq

/-- Object data (`enum ObjData`).  Lanes and sound references are `ℕ`,
BGA layers are `ℕ` (0 to 3). -/
inductive ObjData where
  | Deleted
  | Visible (lane : ℕ) (snd : Option ℕ)
  | Invisible (lane : ℕ) (snd : Option ℕ)
  | LNStart (lane : ℕ) (snd : Option ℕ)
  | LNDone (lane : ℕ) (snd : Option ℕ)
  | Bomb (lane : ℕ) (snd : Option ℕ) (damage : Damage)
  | BGM (snd : ℕ)
  | SetBGA (layer : ℕ) (bga : BGARef)
  | SetBPM (bpm : ℚ)
  | Stop (dur : Duration)
  | StopEnd
  | SetMeasureFactor (factor : ℚ)
  | MeasureBar
  | End
deriving DecidableEq

namespace ObjData

/-- `ObjQueryOps::is_lnstart`. -/
def is_lnstart : ObjData → Bool
  | .LNStart _ _ => true
  | _ => false

/-- `ObjQueryOps::is_lndone`. -/
def is_lndone : ObjData → Bool
  | .LNDone _ _ => true
  | _ => false

/-- `ObjQueryOps::is_soundable`. -/
def is_soundable : ObjData → Bool
  | .Visible _ _ | .Invisible _ _ | .LNStart _ _ | .LNDone _ _ => true
  | _ => false

/-- `ObjQueryOps::is_gradable`. -/
def is_gradable : ObjData → Bool
  | .Visible _ _ | .LNStart _ _ | .LNDone _ _ => true
  | _ => false

/-- `ObjQueryOps::is_object`. -/
def is_object : ObjData → Bool
  | .Visible _ _ | .Invisible _ _ | .LNStart _ _ | .LNDone _ _ | .Bomb _ _ _ => true
  | _ => false

/-- `ObjQueryOps::object_lane`. -/
def object_lane : ObjData → Option ℕ
  | .Visible lane _ | .Invisible lane _ | .LNStart lane _ | .LNDone lane _
  | .Bomb lane _ _ => some lane
  | _ => none

/-- `ObjQueryOps::sounds`. -/
def sounds : ObjData → List ℕ
  | .Visible _ (some sref) => [sref]
  | .Invisible _ (some sref) => [sref]
  | .LNStart _ (some sref) => [sref]
  | .LNDone _ (some sref) => [sref]
  | .Bomb _ (some sref) _ => [sref]
  | .BGM sref => [sref]
  | _ => []

/-- `ObjConvOps::to_visible`; `fail!` on a non-matching variant is `none`. -/
def to_visible : ObjData → Option ObjData
  | .Visible lane snd | .Invisible lane snd
  | .LNStart lane snd | .LNDone lane snd => some (.Visible lane snd)
  | _ => none

/-- `ObjConvOps::to_invisible`; `fail!` on a non-matching variant is `none`. -/
def to_invisible : ObjData → Option ObjData
  | .Visible lane snd | .Invisible lane snd
  | .LNStart lane snd | .LNDone lane snd => some (.Invisible lane snd)
  | _ => none

/-- `ObjConvOps::to_lnstart`; `fail!` on a non-matching variant is `none`. -/
def to_lnstart : ObjData → Option ObjData
  | .Visible lane snd | .Invisible lane snd
  | .LNStart lane snd | .LNDone lane snd => some (.LNStart lane snd)
  | _ => none

/-- `ObjConvOps::to_lndone`; `fail!` on a non-matching variant is `none`. -/
def to_lndone : ObjData → Option ObjData
  | .Visible lane snd | .Invisible lane snd
  | .LNStart lane snd | .LNDone lane snd => some (.LNDone lane snd)
  | _ => none

/-- `ObjConvOps::to_effect`.  Note the catch-all arm of the source returns
`self.clone()` (no panic), so this is a total function made `Option`-valued
only for uniformity with the four conversions above. -/
def to_effect : ObjData → Option ObjData
  | .Visible _ (some snd) | .Invisible _ (some snd)
  | .LNStart _ (some snd) | .LNDone _ (some snd) => some (.BGM snd)
  | .Visible _ none | .Invisible _ none
  | .LNStart _ none | .LNDone _ none | .Bomb _ _ _ => some .Deleted
  | d => some d

/-- `ObjConvOps::with_object_lane`.  The catch-all arm of the source returns
`self.clone()` (no panic). -/
def with_object_lane (lane : ℕ) : ObjData → Option ObjData
  | .Visible _ snd => some (.Visible lane snd)
  | .Invisible _ snd => some (.Invisible lane snd)
  | .LNStart _ snd => some (.LNStart lane snd)
  | .LNDone _ snd => some (.LNDone lane snd)
  | .Bomb _ snd damage => some (.Bomb lane snd damage)
  | d => some d

end ObjData

/-- Object location per axis (`struct ObjLoc<f64>`).  The `+inf` coordinates
occurring after a negative-BPM discontinuity are not representable in `ℚ`;
no claim proved here touches such an object. -/
structure ObjLoc where
  vpos : ℚ
  pos : ℚ
  vtime : ℚ
  time : ℚ
deriving DecidableEq

/-- An object with precalculated position and time (`struct Obj`). -/
structure Obj where
  loc : ObjLoc
  data : ObjData
deriving DecidableEq

/-- `BPM::sec_to_measure`: `sec * bpm / 240.0`. -/
def sec_to_measure (bpm : ℚ) (sec : ℚ) : ℚ :=
  sec * bpm / 240

/-! ## Grades and constants (`src/engine/player.rs`) -/

/-- Grades (`enum Grade`). -/
inductive Grade where
  | MISS
  | BAD
  | GOOD
  | GREAT
  | COOL
deriving DecidableEq

/-- Required time difference in seconds to get at least the COOL grade. -/
def COOL_CUTOFF : ℚ := 0.0144
/-- Required time difference in seconds to get at least the GREAT grade. -/
def GREAT_CUTOFF : ℚ := 0.048
/-- Required time difference in seconds to get at least the GOOD grade. -/
def GOOD_CUTOFF : ℚ := 0.084
/-- Required time difference in seconds to get at least the BAD grade. -/
def BAD_CUTOFF : ℚ := 0.144

/-- The maximum (internal) value for the gauge. -/
def MAXGAUGE : ℤ := 512
/-- A base score per exact input. -/
def SCOREPERNOTE : ℚ := 300.0

/-- The damage due to the MISS grading (when not caused by a bomb). -/
def MISS_DAMAGE : Damage := .GaugeDamage 0.059
/-- The damage due to the BAD grading. -/
def BAD_DAMAGE : Damage := .GaugeDamage 0.030

/-! ## Input model (`src/engine/input.rs`) -/

/-- State of virtual input elements (`enum InputState`). -/
inductive InputState where
  | Positive
  | Neutral
  | Negative
deriving DecidableEq

/-- Actual input (`enum Input`); SDL key codes and joystick indices are `ℕ`. -/
inductive Input where
  | KeyInput (key : ℕ)
  | JoyAxisInput (axis : ℕ)
  | JoyButtonInput (button : ℕ)
  | QuitInput
deriving DecidableEq

/-- Virtual input (`enum VirtualInput`). -/
inductive VirtualInput where
  | LaneInput (lane : ℕ)
  | SpeedUpInput
  | SpeedDownInput
deriving DecidableEq

/-! ## Player state (`struct Player`)

Fields with pure game-play content are embedded; handles to SDL, the options
block and resource caches are represented by the booleans and counts the
embedded code actually reads (`autoplay`, `exclusive`, `nnotes`, …).
`Pointer` fields keep their index (into `objs`) and, for `cur`, the cached
location. -/

structure Player where
  /-- `opts.is_autoplay()`. -/
  autoplay : Bool
  /-- `opts.is_exclusive()`. -/
  exclusive : Bool
  /-- The timeline's object list (`timeline.objs`). -/
  objs : List Obj
  /-- `infos.nnotes`. -/
  nnotes : ℕ
  /-- `infos.originoffset`. -/
  originoffset : ℚ
  /-- The input mapping (`keymap`), a hash map modelled as a partial map. -/
  keymap : Input → Option VirtualInput
  /-- Per-object resolved flags (`nograding`). -/
  nograding : ℕ → Bool
  /-- Currently active BGA layers (`bga`). -/
  bga : ℕ → BGARef
  /-- The current play speed. -/
  playspeed : ℚ
  /-- The target play speed, if changing. -/
  targetspeed : Option ℚ
  /-- The current BPM. -/
  bpm : ℚ
  /-- The timestamp at the last tick, in milliseconds. -/
  now : ℕ
  /-- Index of the grading-line pointer `cur`. -/
  cur : ℕ
  /-- Cached location of `cur`. -/
  curloc : ObjLoc
  /-- Index of the `checked` pointer (its cached location is never read). -/
  checked : ℕ
  /-- Per-lane pointers to in-progress LN starts (`thru`), kept as indices. -/
  thru : ℕ → Option ℕ
  /-- Location of the first negative `SetBPM` object, when reverse motion is
  active (`reverse`). -/
  reverse : Option ObjLoc
  /-- The grading-area scale factor. -/
  gradefactor : ℚ
  /-- The last issued grade and its timestamp. -/
  lastgrade : Option (Grade × ℕ)
  /-- The numbers of each grade. -/
  gradecounts : Grade → ℕ
  /-- The current combo counter. -/
  lastcombo : ℕ
  /-- The best combo so far. -/
  bestcombo : ℕ
  /-- The current score. -/
  score : ℕ
  /-- The current health gauge; may go negative. -/
  gauge : ℤ
  /-- The gauge required to survive at the end. -/
  survival : ℤ
  /-- Per-lane count of currently held discrete inputs (`keymultiplicity`). -/
  keymultiplicity : ℕ → ℕ
  /-- Per-lane joystick axis state (`joystate`). -/
  joystate : ℕ → InputState

/-- `Player::key_pressed`. -/
def key_pressed (p : Player) (lane : ℕ) : Bool :=
  p.keymultiplicity lane > 0 || p.joystate lane != .Neutral

/-! ## Grading (`Player::update_grade` and friends) -/

/-- `Player::update_grade`.  The boolean result is `false` exactly when the
damage was `InstantDeath`. -/
def update_grade (p : Player) (grade : Grade) (scoredelta : ℚ)
    (damage : Option Damage) : Player × Bool :=
  let p1 : Player :=
    { p with
      gradecounts := fun g => if g = grade then p.gradecounts g + 1 else p.gradecounts g,
      lastgrade := some (grade, p.now),
      score := p.score + toUintTrunc (scoredelta * SCOREPERNOTE *
        (1 + (p.lastcombo : ℚ) / (p.nnotes : ℚ))) }
  let p2 : Player :=
    match grade with
    | .MISS | .BAD => { p1 with lastcombo := 0 }
    | .GOOD => p1
    | .GREAT | .COOL =>
      let weight : ℤ := if grade = .GREAT then 2 else 3
      let cmbbonus : ℤ := ((min p1.lastcombo 100 / 50 : ℕ) : ℤ)
      { p1 with
        lastcombo := p1.lastcombo + 1,
        gauge := min (p1.gauge + weight + cmbbonus) MAXGAUGE }
  let p3 : Player := { p2 with bestcombo := max p2.bestcombo p2.lastcombo }
  match damage with
  | some (.GaugeDamage r) =>
    ({ p3 with gauge := p3.gauge - toIntTrunc ((MAXGAUGE : ℚ) * r) }, true)
  | some .InstantDeath =>
    ({ p3 with gauge := min p3.gauge 0 }, false)
  | none => (p3, true)

/-- The grade/damage selection chain of `Player::update_grade_from_distance`
(the argument is the already-normalized absolute distance). -/
def grade_damage_of_dist (dist : ℚ) : Grade × Option Damage :=
  if dist < COOL_CUTOFF then (.COOL, none)
  else if dist < GREAT_CUTOFF then (.GREAT, none)
  else if dist < GOOD_CUTOFF then (.GOOD, none)
  else if dist < BAD_CUTOFF then (.BAD, some BAD_DAMAGE)
  else (.MISS, some MISS_DAMAGE)

/-- `Player::update_grade_from_distance`.  The source asserts that the
returned `keepgoing` flag is true; the flag is exposed as the second
component. -/
def update_grade_from_distance (p : Player) (dist : ℚ) : Player × Bool :=
  let dist := |dist|
  let gd := grade_damage_of_dist dist
  let scoredelta := max (1 - dist / BAD_CUTOFF) 0
  update_grade p gd.1 scoredelta gd.2

/-- `Player::update_grade_from_damage`. -/
def update_grade_from_damage (p : Player) (damage : Damage) : Player × Bool :=
  update_grade p .MISS 0.0 (some damage)

/-- `Player::update_grade_to_miss`.  As with `update_grade_from_distance`,
the asserted `keepgoing` flag is exposed as the second component. -/
def update_grade_to_miss (p : Player) : Player × Bool :=
  update_grade p .MISS 0.0 (some MISS_DAMAGE)

/-! ## Play speed marks -/

/-- The list of play speed marks (`SPEED_MARKS`). -/
def SPEED_MARKS : List ℚ :=
  [0.1, 0.2, 0.4, 0.6, 0.8, 1.0, 1.2, 1.5, 2.0, 2.5, 3.0,
   3.5, 4.0, 4.5, 5.0, 5.5, 6.0, 7.0, 8.0, 10.0, 15.0, 25.0, 40.0, 60.0, 99.0]

/-- The loop of `next_speed_mark`, carrying the `prev` accumulator. -/
def next_speed_mark_go (current : ℚ) : List ℚ → Option ℚ → Option ℚ
  | [], _ => none
  | speed :: rest, prev =>
    if speed < current - 0.001 then next_speed_mark_go current rest (some speed)
    else prev

/-- `next_speed_mark`: the nearest mark below the current speed, if any. -/
def next_speed_mark (current : ℚ) : Option ℚ :=
  next_speed_mark_go current SPEED_MARKS none

/-- The loop of `previous_speed_mark` (over the reversed mark list). -/
def previous_speed_mark_go (current : ℚ) : List ℚ → Option ℚ → Option ℚ
  | [], _ => none
  | speed :: rest, next =>
    if speed > current + 0.001 then previous_speed_mark_go current rest (some speed)
    else next

/-- `previous_speed_mark`: the nearest mark above the current speed, if any. -/
def previous_speed_mark (current : ℚ) : Option ℚ :=
  previous_speed_mark_go current SPEED_MARKS.reverse none

/-! ## Lane press state (the `is_unpressed`/`is_pressed` closures in `tick`) -/

/-- The `is_unpressed` closure of `Player::tick`: reports whether the lane
went from pressed to unpressed, updating the multiplicity/axis state. -/
def is_unpressed (p : Player) (lane : ℕ) (continuous : Bool)
    (state : InputState) : Player × Bool :=
  if state = .Neutral ∨ (continuous ∧ p.joystate lane ≠ state) then
    if continuous then
      ({ p with joystate := fun l => if l = lane then state else p.joystate l }, true)
    else
      let p1 : Player :=
        if p.keymultiplicity lane > 0 then
          { p with keymultiplicity :=
              fun l => if l = lane then p.keymultiplicity lane - 1
                       else p.keymultiplicity l }
        else p
      (p1, p1.keymultiplicity lane == 0)
  else (p, false)

/-- The `is_pressed` closure of `Player::tick`: reports whether the lane went
from unpressed to pressed, updating the multiplicity/axis state. -/
def is_pressed (p : Player) (lane : ℕ) (continuous : Bool)
    (state : InputState) : Player × Bool :=
  if state ≠ .Neutral then
    if continuous then
      ({ p with joystate := fun l => if l = lane then state else p.joystate l }, true)
    else
      let p1 : Player :=
        { p with keymultiplicity :=
            fun l => if l = lane then p.keymultiplicity lane + 1
                     else p.keymultiplicity l }
      (p1, p1.keymultiplicity lane == 1)
  else (p, false)

/-! ## Sound effect log

The mixer is external; a play request is recorded instead of performed. -/

/-- A request sent to the audio collaborator during a tick. -/
inductive SoundEff where
  /-- `Player::play_sound(sref, bgm)`. -/
  | sfx (sref : ℕ) (bgm : Bool)
  /-- `Player::play_beep()`. -/
  | beep
deriving DecidableEq

/-- `Player::play_sound`, as a log append. -/
def play_sound (sounds : List SoundEff) (sref : ℕ) (bgm : Bool) : List SoundEff :=
  sounds ++ [.sfx sref bgm]

/-- `Player::play_sound_if_nonzero`. -/
def play_sound_if_nonzero (sounds : List SoundEff) (sref : ℕ) (bgm : Bool) :
    List SoundEff :=
  if sref > 0 then play_sound sounds sref bgm else sounds

/-! ## Pointer operations (format/pointer.rs is not among the sources) -/

/-- A default object used for (never exercised) out-of-range list accesses;
the Rust code would panic on such an access. -/
def objAt (objs : List Obj) (i : ℕ) : Obj :=
  objs.getD i { loc := ⟨0, 0, 0, 0⟩, data := .Deleted }

/-- Modelled from the spec: `Pointer::find_next_of_type` (defined in the
missing `format/pointer.rs`) scans forward from the pointer's index for the
next object matching the predicate, returning `none` when no such object
exists. -/
def findNextOfTypeFrom (objs : List Obj) (i : ℕ) (pred : Obj → Bool) : Option ℕ :=
  ((objs.drop i).findIdx? pred).map (· + i)

/-- Modelled from the spec: `Pointer::find_closest_of_type` (defined in the
missing `format/pointer.rs`) scans forward and backward from the pointer and
picks whichever matching object is nearer on the given axis; only the
`VirtualTime` axis is used by the embedded code, so the distance is measured
on `vtime` from the pointer's cached `vtime`.  The spec leaves the tie-break
open; this model prefers the earlier (backward) candidate on a tie. -/
def findClosestOfType (objs : List Obj) (cur : ℕ) (curvtime : ℚ)
    (pred : Obj → Bool) : Option ℕ :=
  let fwd := ((objs.drop cur).findIdx? pred).map (· + cur)
  let bwd := (((objs.take cur).reverse).findIdx? pred).map (fun k => cur - 1 - k)
  match bwd, fwd with
  | none, none => none
  | some b, none => some b
  | none, some f => some f
  | some b, some f =>
    if |curvtime - (objAt objs b).loc.vtime| ≤ |(objAt objs f).loc.vtime - curvtime|
    then some b else some f

/-- Modelled from the spec: `Pointer::seek` on the `ActualPos` axis (defined
in the missing `format/pointer.rs`) repositions the index up to (not
including) the first object whose `pos` coordinate exceeds the target. -/
def seekActualPos (objs : List Obj) (target : ℚ) : ℕ :=
  (objs.takeWhile (fun o => decide (o.loc.pos ≤ target))).length

/-- Modelled from the spec: `Pointer::find_end` (defined in the missing
`format/pointer.rs`) snaps the pointer to the chart's terminal position,
i.e. past every object. -/
def findEndIndex (objs : List Obj) : ℕ :=
  objs.length

/-! ## The tick loop (`Player::tick`)

`tick` would, in the real code, read the wall clock and advance the `cur`
pointer by interpolation (code living in the missing `format/pointer.rs`).
The embedded `tick` therefore takes the derived current time `curtime` and
the recomputed location `newloc` of `cur` as inputs, together with the
already-translated input event stream and the two mixer observations made by
the continuation decision.  Early `return false` paths leave `Player.cur`,
`Player.checked` and `Player.thru` uncommitted, exactly as the source does
(the locals are written back only at the end of `tick`). -/

/-- Result of one tick: the new player state, the accumulated play requests,
and whether the caller should keep calling `tick`. -/
structure TickResult where
  player : Player
  sounds : List SoundEff
  keepgoing : Bool

/-- Result of the time-advance loop: either the final state and next index,
or an immediate stop (`SetBPM` with value 0). -/
inductive AdvResult where
  | done (p : Player) (nextIdx : ℕ) (sounds : List SoundEff)
  | halt (p : Player) (sounds : List SoundEff)

/-- The object-effect loop of `Player::tick`: drains
`cur.mut_until(ActualTime, curtime - cur.loc.time)` (modelled from the spec:
the iterator yields the objects, starting at index `i`, whose `time`
coordinate does not exceed `curtime`) and applies each object's effect. -/
def advance_loop (curtime : ℚ) : Player → ℕ → List Obj → List SoundEff → AdvResult
  | p, i, [], sounds => .done p i sounds
  | p, i, o :: rest, sounds =>
    if o.loc.time ≤ curtime then
      match o.data with
      | .BGM sref =>
        advance_loop curtime p (i + 1) rest (play_sound_if_nonzero sounds sref true)
      | .SetBGA layer bgaref =>
        advance_loop curtime
          { p with bga := fun l => if l = layer then bgaref else p.bga l }
          (i + 1) rest sounds
      | .SetBPM newbpm =>
        if newbpm = 0 then .halt { p with bpm := newbpm } sounds
        else if newbpm < 0 then
          advance_loop curtime { p with bpm := newbpm, reverse := some o.loc }
            (i + 1) rest sounds
        else advance_loop curtime { p with bpm := newbpm } (i + 1) rest sounds
      | .Visible _ sref | .LNStart _ sref =>
        if p.autoplay then
          let sounds1 :=
            match sref with
            | some s => play_sound_if_nonzero sounds s false
            | none => sounds
          advance_loop curtime (update_grade_from_distance p 0).1 (i + 1) rest sounds1
        else advance_loop curtime p (i + 1) rest sounds
      | _ => advance_loop curtime p (i + 1) rest sounds
    else .done p i sounds

/-- The escaped-object miss sweep of `Player::tick`: drains
`checked.mut_upto(&cur)` (modelled from the spec: the objects with indices
from `checked` up to but not including `cur`, committing the index of the
last yielded object back into `checked`), missing each unresolved missable
object whose scaled distance has left the grading area.  Returns the new
state, the local `thru` array, and the new `checked` index. -/
def miss_sweep (gf curvtime : ℚ) :
    Player → (ℕ → Option ℕ) → ℕ → List Obj → Player × (ℕ → Option ℕ) × ℕ
  | p, thru, i, [] => (p, thru, i)
  | p, thru, i, o :: rest =>
    if (curvtime - o.loc.vtime) * gf < BAD_CUTOFF then (p, thru, i)
    else
      let step : Player × (ℕ → Option ℕ) :=
        if p.nograding i then (p, thru)
        else
          match o.data.object_lane with
          | some lane =>
            let missable :=
              match o.data with
              | .Visible _ _ | .LNStart _ _ => true
              | .LNDone _ _ => (thru lane).isSome
              | _ => false
            if missable then
              ((update_grade_to_miss p).1, fun l => if l = lane then none else thru l)
            else (p, thru)
          | none => (p, thru)
      miss_sweep gf curvtime step.1 step.2 (i + 1) rest

/-- The `process_unpress` closure of `Player::tick`: on a release, a pending
LN hold is resolved cleanly when its end lies within the BAD cutoff,
otherwise a MISS is issued; the hold reference is cleared either way. -/
def process_unpress (objs : List Obj) (curloc : ObjLoc) (gf : ℚ) (p : Player)
    (thru : ℕ → Option ℕ) (lane : ℕ) : Player × (ℕ → Option ℕ) :=
  let p1 : Player :=
    match thru lane with
    | some t =>
      match findNextOfTypeFrom objs t
          (fun o => o.data.object_lane == some lane && o.data.is_lndone) with
      | some j =>
        let delta := ((objAt objs j).loc.vtime - curloc.vtime) * gf
        if |delta| < BAD_CUTOFF then
          { p with nograding := fun k => if k = j then true else p.nograding k }
        else (update_grade_to_miss p).1
      | none => p
    | none => p
  (p1, fun l => if l = lane then none else thru l)

/-- The `process_press` closure of `Player::tick`: plays the closest key
sound, then grades the closest gradable object in the lane provided it
passes the checks (`index >= checked`, unresolved, not an LN-end) and lies
within the BAD cutoff. -/
def process_press (objs : List Obj) (curIdx checkedIdx : ℕ) (curloc : ObjLoc)
    (gf : ℚ) (p : Player) (thru : ℕ → Option ℕ) (lane : ℕ)
    (sounds : List SoundEff) : Player × (ℕ → Option ℕ) × List SoundEff :=
  let sounds1 :=
    match findClosestOfType objs curIdx curloc.vtime
        (fun o => o.data.object_lane == some lane && o.data.is_soundable) with
    | some j => ((objAt objs j).data.sounds).foldl (fun ss s => play_sound ss s false) sounds
    | none => sounds
  match findClosestOfType objs curIdx curloc.vtime
      (fun o => o.data.object_lane == some lane && o.data.is_gradable) with
  | some j =>
    if checkedIdx ≤ j ∧ p.nograding j = false ∧ (objAt objs j).data.is_lndone = false then
      let dist := ((objAt objs j).loc.vtime - curloc.vtime) * gf
      if |dist| < BAD_CUTOFF then
        let thru1 : ℕ → Option ℕ :=
          if (objAt objs j).data.is_lnstart then
            fun l => if l = lane then some j else thru l
          else thru
        let p1 : Player :=
          { p with nograding := fun k => if k = j then true else p.nograding k }
        ((update_grade_from_distance p1 dist).1, thru1, sounds1)
      else (p, thru, sounds1)
    else (p, thru, sounds1)
  | none => (p, thru, sounds1)

/-- Result of the input-processing loop: either the final state or an
immediate stop (quit event). -/
inductive LoopResult where
  | done (p : Player) (thru : ℕ → Option ℕ) (sounds : List SoundEff)
  | halt (p : Player) (sounds : List SoundEff)

/-- The input-processing loop of `Player::tick`, over the already-translated
event stream (each element is the result of `Input::from_event`). -/
def input_loop (curIdx checkedIdx : ℕ) (curloc : ObjLoc) :
    Player → (ℕ → Option ℕ) → List (Input × InputState) → List SoundEff → LoopResult
  | p, thru, [], sounds => .done p thru sounds
  | p, thru, (key, state) :: rest, sounds =>
    if key = .QuitInput then .halt p sounds
    else
      match p.keymap key with
      | none => input_loop curIdx checkedIdx curloc p thru rest sounds
      | some vkey =>
        let continuous : Bool :=
          match key with
          | .JoyAxisInput _ => true
          | _ => false
        if p.exclusive then input_loop curIdx checkedIdx curloc p thru rest sounds
        else
          match vkey, state with
          | .SpeedDownInput, .Positive | .SpeedDownInput, .Negative =>
            let current := p.targetspeed.getD p.playspeed
            (match next_speed_mark current with
             | some newspeed =>
               input_loop curIdx checkedIdx curloc
                 { p with targetspeed := some newspeed } thru rest (sounds ++ [.beep])
             | none => input_loop curIdx checkedIdx curloc p thru rest sounds)
          | .SpeedUpInput, .Positive | .SpeedUpInput, .Negative =>
            let current := p.targetspeed.getD p.playspeed
            (match previous_speed_mark current with
             | some newspeed =>
               input_loop curIdx checkedIdx curloc
                 { p with targetspeed := some newspeed } thru rest (sounds ++ [.beep])
             | none => input_loop curIdx checkedIdx curloc p thru rest sounds)
          | .LaneInput lane, st =>
            if p.autoplay then input_loop curIdx checkedIdx curloc p thru rest sounds
            else
              let pr1 := is_unpressed p lane continuous st
              let pt1 : Player × (ℕ → Option ℕ) :=
                if pr1.2 then
                  process_unpress pr1.1.objs curloc pr1.1.gradefactor pr1.1 thru lane
                else (pr1.1, thru)
              let pr2 := is_pressed pt1.1 lane continuous st
              let pt2 : Player × (ℕ → Option ℕ) × List SoundEff :=
                if pr2.2 then
                  process_press pr2.1.objs curIdx checkedIdx curloc pr2.1.gradefactor
                    pr2.1 pt1.2 lane sounds
                else (pr2.1, pt1.2, sounds)
              input_loop curIdx checkedIdx curloc pt2.1 pt2.2.1 rest pt2.2.2
          | _, _ => input_loop curIdx checkedIdx curloc p thru rest sounds

/-- Result of the bomb sweep: either the final state or an immediate stop
(instant-death damage; `cur` is already committed in the returned player). -/
inductive BombResult where
  | done (p : Player) (thru : ℕ → Option ℕ) (sounds : List SoundEff)
  | halt (p : Player) (sounds : List SoundEff)

/-- The bomb sweep of `Player::tick`: for each object passed over during
this tick (modelled from the spec: `prev.upto(&cur)` yields the objects with
indices from the pre-tick `cur` up to but not including the post-tick `cur`)
that is a bomb in a pressed lane, drop the lane's hold reference, play its
sound and apply its damage; instant death snaps `cur` to the terminal
position and stops. -/
def bomb_sweep : Player → (ℕ → Option ℕ) → List Obj → List SoundEff → BombResult
  | p, thru, [], sounds => .done p thru sounds
  | p, thru, o :: rest, sounds =>
    match o.data with
    | .Bomb lane sref damage =>
      if key_pressed p lane then
        let thru1 : ℕ → Option ℕ := fun l => if l = lane then none else thru l
        let sounds1 :=
          match sref with
          | some s => play_sound sounds s false
          | none => sounds
        let r := update_grade_from_damage p damage
        if r.2 then bomb_sweep r.1 thru1 rest sounds1
        else .halt { r.1 with cur := findEndIndex r.1.objs } sounds1
      else bomb_sweep p thru rest sounds
    | _ => bomb_sweep p thru rest sounds

/-- The speed-easing step at the top of `Player::tick`. -/
def speed_ease (p : Player) : Player :=
  match p.targetspeed with
  | some target =>
    let delta := target - p.playspeed
    if |delta| < 0.001 then { p with playspeed := target, targetspeed := none }
    else { p with playspeed := p.playspeed + delta * 0.1 }
  | none => p

/-- The phases of `Player::tick` after the time advance: miss sweep, input
processing, bomb sweep, commit, continuation decision. -/
def tick_rest (p : Player) (prevIdx cur : ℕ) (curloc : ObjLoc)
    (events : List (Input × InputState)) (sounds : List SoundEff)
    (mixerNonBeepPlaying keySoundGroupPlaying : Bool) : TickResult :=
  let ms : Player × (ℕ → Option ℕ) × ℕ :=
    if p.autoplay then (p, p.thru, p.checked)
    else
      miss_sweep p.gradefactor curloc.vtime p p.thru p.checked
        ((p.objs.drop p.checked).take (cur - p.checked))
  match input_loop cur ms.2.2 curloc ms.1 ms.2.1 events sounds with
  | .halt p1 sounds1 => ⟨p1, sounds1, false⟩
  | .done p1 thru1 sounds1 =>
    let br : BombResult :=
      if p1.autoplay then .done p1 thru1 sounds1
      else bomb_sweep p1 thru1 ((p1.objs.drop prevIdx).take (cur - prevIdx)) sounds1
    match br with
    | .halt p2 sounds2 => ⟨p2, sounds2, false⟩
    | .done p2 thru2 sounds2 =>
      let p3 : Player :=
        { p2 with cur := cur, curloc := curloc, checked := ms.2.2, thru := thru2 }
      let keep : Bool :=
        if p3.cur = p3.objs.length then
          if p3.autoplay then mixerNonBeepPlaying else keySoundGroupPlaying
        else if curloc.vpos < p3.originoffset then false
        else true
      ⟨p3, sounds2, keep⟩

/-- `Player::tick`.  `curtime` is the wall-clock-derived current time and
`newloc` the post-advance location of `cur` (both computed, in the real
code, by the clock and the missing pointer-interpolation code); `events` is
the already-translated pending input stream; the last two arguments are the
mixer observations used by the continuation decision. -/
def tick (p0 : Player) (curtime : ℚ) (newloc : ObjLoc)
    (events : List (Input × InputState))
    (mixerNonBeepPlaying keySoundGroupPlaying : Bool) : TickResult :=
  let p := speed_ease p0
  let prevIdx := p.cur
  match p.reverse with
  | some revloc =>
    let newpos := revloc.pos + sec_to_measure p.bpm (curtime - revloc.time)
    let cur := seekActualPos p.objs newpos
    let curloc : ObjLoc := { newloc with pos := newpos }
    tick_rest p prevIdx cur curloc events [] mixerNonBeepPlaying keySoundGroupPlaying
  | none =>
    match advance_loop curtime p p.cur (p.objs.drop p.cur) [] with
    | .halt p1 sounds => ⟨p1, sounds, false⟩
    | .done p1 nextIdx sounds =>
      tick_rest p1 prevIdx nextIdx newloc events sounds
        mixerNonBeepPlaying keySoundGroupPlaying

/-! ## The claim-side description of the press-grading search

The spec describes the grading search on a press as selecting the nearest
gradable object *subject to* the `checked`-boundary, unresolved and
LN-end conditions.  The following definition follows those words (for
comparison with `process_press`, which applies the conditions only after
the nearest gradable object has been selected). -/

/-- The press-grading search as the spec words it: among the objects of the
given lane that are gradable, at or after the `checked` boundary, not yet
resolved, and not an already-resolved LN-end, pick the one nearest to the
current virtual time (prefer the earlier index on a tie). -/
def spec_press_gradable_search (objs : List Obj) (curvtime : ℚ)
    (checkedIdx : ℕ) (nograding : ℕ → Bool) (lane : ℕ) : Option ℕ :=
  (List.range objs.length).foldl
    (fun best j =>
      if (objAt objs j).data.object_lane == some lane
          && (objAt objs j).data.is_gradable
          && decide (checkedIdx ≤ j)
          && !(nograding j)
          && !((objAt objs j).data.is_lndone && nograding j) then
        match best with
        | none => some j
        | some b =>
          if |(objAt objs j).loc.vtime - curvtime|
              < |(objAt objs b).loc.vtime - curvtime|
          then some j else some b
      else best) none

/-! ## Concrete fixtures used by witnesses and counterexamples -/

/-- A baseline player state over an empty chart. -/
def base : Player :=
  { autoplay := false, exclusive := false, objs := [], nnotes := 10,
    originoffset := 0, keymap := fun _ => none, nograding := fun _ => false,
    bga := fun _ => .BlankBGA, playspeed := 1, targetspeed := none, bpm := 130,
    now := 0, cur := 0, curloc := ⟨0, 0, 0, 0⟩, checked := 0,
    thru := fun _ => none, reverse := none, gradefactor := 1, lastgrade := none,
    gradecounts := fun _ => 0, lastcombo := 0, bestcombo := 0, score := 0,
    gauge := 256, survival := 150, keymultiplicity := fun _ => 0,
    joystate := fun _ => .Neutral }

/-- `base` with two discrete inputs held on lane 5. -/
def base2 : Player :=
  { base with keymultiplicity := fun l => if l = 5 then 2 else 0 }

/-- A `SetBPM(0)` object at time 1. -/
def oBpm0 : Obj := { loc := ⟨1, 1, 1, 1⟩, data := .SetBPM 0 }

/-- A terminal `End` object at time 9. -/
def oEnd : Obj := { loc := ⟨9, 9, 9, 9⟩, data := .End }

/-- A player about to hit a mid-chart `SetBPM(0)`. -/
def pC6 : Player := { base with objs := [oBpm0, oEnd] }

/-- `base` with one discrete input held on lane 3. -/
def pBomb : Player :=
  { base with keymultiplicity := fun l => if l = 3 then 1 else 0 }

/-- A measure bar (no bomb) at time 1. -/
def oX : Obj := { loc := ⟨1, 1, 1, 1⟩, data := .MeasureBar }

/-- An instant-death bomb on lane 3 with sound 5, at time 1. -/
def oB : Obj := { loc := ⟨1, 1, 1, 1⟩, data := .Bomb 3 (some 5) .InstantDeath }

/-- A further bomb on lane 3, behind `oB`. -/
def oB2 : Obj := { loc := ⟨2, 2, 2, 2⟩, data := .Bomb 3 (some 6) (.GaugeDamage 0.1) }

/-- An unresolved LN-end on lane 0 at virtual time 0 (dead on the grading
line). -/
def oLND : Obj := { loc := ⟨0, 0, 0, 0⟩, data := .LNDone 0 none }

/-- A chart whose nearest gradable object (in lane 0, from virtual time 0)
is an unresolved LN-end. -/
def objsC8 : List Obj := [oLND, oEnd]

/-- A chart with a single visible note on lane 3 at time 1. -/
def objsW : List Obj := [{ loc := ⟨1, 1, 1, 1⟩, data := .Visible 3 none }, oEnd]

/-! ## Helper lemmas about `update_grade` -/

/-- `update_grade` records the issued grade with the current timestamp. -/
theorem update_grade_lastgrade (p : Player) (g : Grade) (sd : ℚ)
    (dmg : Option Damage) :
    ((update_grade p g sd dmg).1).lastgrade = some (g, p.now) := by
  rcases dmg with _ | d
  · cases g <;> simp [update_grade]
  · rcases d with r | _ <;> cases g <;> simp [update_grade]

/-- `update_grade` adds the truncated combo-weighted score delta. -/
theorem update_grade_score (p : Player) (g : Grade) (sd : ℚ)
    (dmg : Option Damage) :
    ((update_grade p g sd dmg).1).score =
      p.score + toUintTrunc (sd * SCOREPERNOTE *
        (1 + (p.lastcombo : ℚ) / (p.nnotes : ℚ))) := by
  rcases dmg with _ | d
  · cases g <;> simp [update_grade]
  · rcases d with r | _ <;> cases g <;> simp [update_grade]

/-- `update_grade` never touches the object list. -/
theorem update_grade_objs (p : Player) (g : Grade) (sd : ℚ)
    (dmg : Option Damage) :
    ((update_grade p g sd dmg).1).objs = p.objs := by
  rcases dmg with _ | d
  · cases g <;> simp [update_grade]
  · rcases d with r | _ <;> cases g <;> simp [update_grade]

/-- `update_grade` never touches the resolved flags. -/
theorem update_grade_nograding (p : Player) (g : Grade) (sd : ℚ)
    (dmg : Option Damage) :
    ((update_grade p g sd dmg).1).nograding = p.nograding := by
  rcases dmg with _ | d
  · cases g <;> simp [update_grade]
  · rcases d with r | _ <;> cases g <;> simp [update_grade]

/-- The `keepgoing` flag of `update_grade` is false exactly on instant
death. -/
theorem update_grade_keepgoing (p : Player) (g : Grade) (sd : ℚ) :
    (∀ r : ℚ, (update_grade p g sd (some (.GaugeDamage r))).2 = true) ∧
    (update_grade p g sd none).2 = true ∧
    (update_grade p g sd (some .InstantDeath)).2 = false := by
  refine ⟨fun r => ?_, ?_, ?_⟩ <;> cases g <;> simp [update_grade]

/-- The combo counter after `update_grade`, by grade. -/
theorem update_grade_lastcombo (p : Player) (g : Grade) (sd : ℚ)
    (dmg : Option Damage) :
    ((update_grade p g sd dmg).1).lastcombo =
      (match g with
       | .MISS | .BAD => 0
       | .GOOD => p.lastcombo
       | .GREAT | .COOL => p.lastcombo + 1) := by
  rcases dmg with _ | d
  · cases g <;> simp [update_grade]
  · rcases d with r | _ <;> cases g <;> simp [update_grade]

/-- The gauge after `update_grade` with no damage, by grade. -/
theorem update_grade_gauge_none (p : Player) (g : Grade) (sd : ℚ) :
    ((update_grade p g sd none).1).gauge =
      (match g with
       | .MISS | .BAD | .GOOD => p.gauge
       | .GREAT => min (p.gauge + 2 + ((min p.lastcombo 100 / 50 : ℕ) : ℤ)) MAXGAUGE
       | .COOL => min (p.gauge + 3 + ((min p.lastcombo 100 / 50 : ℕ) : ℤ)) MAXGAUGE) := by
  cases g <;> simp [update_grade]

/-- A supplied gauge damage subtracts its truncated amount from the gauge
the call would otherwise produce. -/
theorem update_grade_gauge_damage (p : Player) (g : Grade) (sd r : ℚ) :
    ((update_grade p g sd (some (.GaugeDamage r))).1).gauge =
      ((update_grade p g sd none).1).gauge - toIntTrunc ((MAXGAUGE : ℚ) * r) := by
  cases g <;> simp [update_grade]

/-- Instant death clamps the gauge the call would otherwise produce to at
most 0. -/
theorem update_grade_gauge_death (p : Player) (g : Grade) (sd : ℚ) :
    ((update_grade p g sd (some .InstantDeath)).1).gauge =
      min (((update_grade p g sd none).1).gauge) 0 := by
  cases g <;> simp [update_grade]

/-- With no damage, `update_grade` keeps the gauge at most `MAXGAUGE`. -/
theorem update_grade_gauge_le (p : Player) (g : Grade) (sd : ℚ)
    (hg : p.gauge ≤ MAXGAUGE) :
    ((update_grade p g sd none).1).gauge ≤ MAXGAUGE := by
  rw [update_grade_gauge_none]
  cases g <;> first | exact hg | exact min_le_right _ _

/-- The grade/damage chain only ever selects gauge damages. -/
theorem grade_damage_of_dist_shape (dist : ℚ) :
    (grade_damage_of_dist dist).2 = none ∨
    ∃ r, (grade_damage_of_dist dist).2 = some (.GaugeDamage r) := by
  unfold grade_damage_of_dist
  split_ifs <;> simp [BAD_DAMAGE, MISS_DAMAGE]

/-- `update_grade_from_distance` is `update_grade` at the selected
grade/damage with the distance-derived score weight. -/
theorem update_grade_from_distance_eq (p : Player) (d : ℚ) :
    update_grade_from_distance p d =
      update_grade p (grade_damage_of_dist |d|).1
        (max (1 - |d| / BAD_CUTOFF) 0) (grade_damage_of_dist |d|).2 := rfl

/-- The grade selected for a given absolute distance, per cutoff band. -/
theorem gdd_eq_cool (d : ℚ) (h : d < COOL_CUTOFF) :
    grade_damage_of_dist d = (.COOL, none) := by
  unfold grade_damage_of_dist
  rw [if_pos h]

/-- The GREAT band of the grade selection. -/
theorem gdd_eq_great (d : ℚ) (h1 : COOL_CUTOFF ≤ d) (h2 : d < GREAT_CUTOFF) :
    grade_damage_of_dist d = (.GREAT, none) := by
  unfold grade_damage_of_dist
  rw [if_neg (not_lt.mpr h1), if_pos h2]

/-- The GOOD band of the grade selection. -/
theorem gdd_eq_good (d : ℚ) (h1 : GREAT_CUTOFF ≤ d) (h2 : d < GOOD_CUTOFF) :
    grade_damage_of_dist d = (.GOOD, none) := by
  have h0 : COOL_CUTOFF ≤ d := le_trans (by norm_num [COOL_CUTOFF, GREAT_CUTOFF]) h1
  unfold grade_damage_of_dist
  rw [if_neg (not_lt.mpr h0), if_neg (not_lt.mpr h1), if_pos h2]

/-- The BAD band of the grade selection. -/
theorem gdd_eq_bad (d : ℚ) (h1 : GOOD_CUTOFF ≤ d) (h2 : d < BAD_CUTOFF) :
    grade_damage_of_dist d = (.BAD, some BAD_DAMAGE) := by
  have h0 : COOL_CUTOFF ≤ d := le_trans (by norm_num [COOL_CUTOFF, GOOD_CUTOFF]) h1
  have h0' : GREAT_CUTOFF ≤ d := le_trans (by norm_num [GREAT_CUTOFF, GOOD_CUTOFF]) h1
  unfold grade_damage_of_dist
  rw [if_neg (not_lt.mpr h0), if_neg (not_lt.mpr h0'), if_neg (not_lt.mpr h1), if_pos h2]

/-- The MISS band of the grade selection. -/
theorem gdd_eq_miss (d : ℚ) (h1 : BAD_CUTOFF ≤ d) :
    grade_damage_of_dist d = (.MISS, some MISS_DAMAGE) := by
  have h0 : COOL_CUTOFF ≤ d := le_trans (by norm_num [COOL_CUTOFF, BAD_CUTOFF]) h1
  have h0' : GREAT_CUTOFF ≤ d := le_trans (by norm_num [GREAT_CUTOFF, BAD_CUTOFF]) h1
  have h0'' : GOOD_CUTOFF ≤ d := le_trans (by norm_num [GOOD_CUTOFF, BAD_CUTOFF]) h1
  unfold grade_damage_of_dist
  rw [if_neg (not_lt.mpr h0), if_neg (not_lt.mpr h0'), if_neg (not_lt.mpr h0''),
    if_neg (not_lt.mpr h1)]

/-! ## C1: the grading cutoffs -/

/-- C1: for every distance `d` fed to `update_grade_from_distance` (already
scaled by the rank-derived grade factor), the grade is COOL for
`|d| < 0.0144`, GREAT for `0.0144 <= |d| < 0.048`, GOOD for
`0.048 <= |d| < 0.084`, BAD with the moderate damage `BAD_DAMAGE` for
`0.084 <= |d| < 0.144`, and MISS with the severe damage `MISS_DAMAGE`
otherwise. -/
theorem C1_grade_cutoffs (p : Player) (d : ℚ) :
    (|d| < 0.0144 → grade_damage_of_dist |d| = (.COOL, none) ∧
      ((update_grade_from_distance p d).1).lastgrade = some (.COOL, p.now)) ∧
    (0.0144 ≤ |d| → |d| < 0.048 → grade_damage_of_dist |d| = (.GREAT, none) ∧
      ((update_grade_from_distance p d).1).lastgrade = some (.GREAT, p.now)) ∧
    (0.048 ≤ |d| → |d| < 0.084 → grade_damage_of_dist |d| = (.GOOD, none) ∧
      ((update_grade_from_distance p d).1).lastgrade = some (.GOOD, p.now)) ∧
    (0.084 ≤ |d| → |d| < 0.144 →
      grade_damage_of_dist |d| = (.BAD, some BAD_DAMAGE) ∧
      ((update_grade_from_distance p d).1).lastgrade = some (.BAD, p.now)) ∧
    (0.144 ≤ |d| → grade_damage_of_dist |d| = (.MISS, some MISS_DAMAGE) ∧
      ((update_grade_from_distance p d).1).lastgrade = some (.MISS, p.now)) := by
  have hlast : ((update_grade_from_distance p d).1).lastgrade =
      some ((grade_damage_of_dist |d|).1, p.now) := by
    rw [update_grade_from_distance_eq, update_grade_lastgrade]
  refine ⟨fun h => ?_, fun h1 h2 => ?_, fun h1 h2 => ?_, fun h1 h2 => ?_,
    fun h1 => ?_⟩
  · have hg := gdd_eq_cool |d| (by rw [COOL_CUTOFF]; exact h)
    exact ⟨hg, by rw [hlast, hg]⟩
  · have hg := gdd_eq_great |d| (by rw [COOL_CUTOFF]; exact h1)
      (by rw [GREAT_CUTOFF]; exact h2)
    exact ⟨hg, by rw [hlast, hg]⟩
  · have hg := gdd_eq_good |d| (by rw [GREAT_CUTOFF]; exact h1)
      (by rw [GOOD_CUTOFF]; exact h2)
    exact ⟨hg, by rw [hlast, hg]⟩
  · have hg := gdd_eq_bad |d| (by rw [GOOD_CUTOFF]; exact h1)
      (by rw [BAD_CUTOFF]; exact h2)
    exact ⟨hg, by rw [hlast, hg]⟩
  · have hg := gdd_eq_miss |d| (by rw [BAD_CUTOFF]; exact h1)
    exact ⟨hg, by rw [hlast, hg]⟩

/-- Witness for C1 at the concrete distance 0.1 (a BAD). -/
theorem C1_grade_cutoffs_witness :
    grade_damage_of_dist |(1/10 : ℚ)| = (.BAD, some BAD_DAMAGE) ∧
    ((update_grade_from_distance base (1/10)).1).lastgrade =
      some (.BAD, base.now) :=
  (C1_grade_cutoffs base (1/10)).2.2.2.1 (by rw [abs_of_pos] <;> norm_num)
    (by rw [abs_of_pos] <;> norm_num)

/-! ## C2: combo and gauge effects per grade -/

/-- Counterexample to C2 as stated: a GOOD grade together with a supplied
damage value does change the gauge. -/
theorem C2_counterexample :
    ((update_grade base .GOOD 0 (some (.GaugeDamage (1/2)))).1).gauge ≠
      base.gauge := by
  rw [update_grade_gauge_damage, update_grade_gauge_none]
  rw [show toIntTrunc ((MAXGAUGE : ℚ) * (1/2)) = 256 by
    norm_num [toIntTrunc, MAXGAUGE]]
  show base.gauge - 256 ≠ base.gauge
  norm_num [base]

/-- C2 (amended): the combo effects hold for every call; the stated gauge
effects hold whenever no damage value is supplied, which is the case at
every engine call issuing a COOL, GREAT or GOOD grade. -/
theorem C2_combo_gauge_amended (p : Player) (grade : Grade) (sd : ℚ)
    (dmg : Option Damage) :
    ((grade = .COOL ∨ grade = .GREAT) →
        ((update_grade p grade sd dmg).1).lastcombo = p.lastcombo + 1) ∧
    ((grade = .BAD ∨ grade = .MISS) →
        ((update_grade p grade sd dmg).1).lastcombo = 0) ∧
    (grade = .GOOD →
        ((update_grade p grade sd dmg).1).lastcombo = p.lastcombo) ∧
    (grade = .COOL → ((update_grade p grade sd none).1).gauge =
        min (p.gauge + 3 + ((min p.lastcombo 100 / 50 : ℕ) : ℤ)) MAXGAUGE) ∧
    (grade = .GREAT → ((update_grade p grade sd none).1).gauge =
        min (p.gauge + 2 + ((min p.lastcombo 100 / 50 : ℕ) : ℤ)) MAXGAUGE) ∧
    ((update_grade p .GOOD sd none).1).gauge = p.gauge := by
  refine ⟨?_, ?_, ?_, ?_, ?_, ?_⟩
  · rintro (rfl | rfl) <;> rw [update_grade_lastcombo]
  · rintro (rfl | rfl) <;> rw [update_grade_lastcombo]
  · rintro rfl; rw [update_grade_lastcombo]
  · rintro rfl; rw [update_grade_gauge_none]
  · rintro rfl; rw [update_grade_gauge_none]
  · rw [update_grade_gauge_none]

/-- Witness for C2 (amended) at a concrete COOL with no damage. -/
theorem C2_combo_gauge_witness :
    ((update_grade base .COOL 0 none).1).lastcombo = base.lastcombo + 1 ∧
    ((update_grade base .COOL 0 none).1).gauge =
      min (base.gauge + 3 + ((min base.lastcombo 100 / 50 : ℕ) : ℤ)) MAXGAUGE := by
  have h := C2_combo_gauge_amended base .COOL 0 none
  exact ⟨h.1 (Or.inl rfl), h.2.2.2.1 rfl⟩

/-! ## C3: the score delta -/

/-- C3: each grading at scaled distance `d` adds the truncation of
`max(1 - |d|/0.144, 0) * 300 * (1 + combo/nnotes)` to the score; in
particular a perfect hit at combo 0 adds exactly 300. -/
theorem C3_score_delta (p : Player) (d : ℚ) :
    ((update_grade_from_distance p d).1).score =
      p.score + toUintTrunc (max (1 - |d| / 0.144) 0 * 300 *
        (1 + (p.lastcombo : ℚ) / (p.nnotes : ℚ))) ∧
    (d = 0 → p.lastcombo = 0 →
      ((update_grade_from_distance p d).1).score = p.score + 300) := by
  have hmain : ((update_grade_from_distance p d).1).score =
      p.score + toUintTrunc (max (1 - |d| / 0.144) 0 * 300 *
        (1 + (p.lastcombo : ℚ) / (p.nnotes : ℚ))) := by
    rw [update_grade_from_distance_eq, update_grade_score]
    norm_num [BAD_CUTOFF, SCOREPERNOTE]
  refine ⟨hmain, fun hd hc => ?_⟩
  subst hd
  rw [hmain, hc]
  norm_num [toUintTrunc]
  rfl

/-- Witness for C3 at a perfect hit with combo 0. -/
theorem C3_score_delta_witness :
    ((update_grade_from_distance base 0).1).score = base.score + 300 :=
  (C3_score_delta base 0).2 rfl rfl

/-! ## C4: the gauge cap -/

/-- Counterexample to C4 as stated: a `GaugeDamage` with negative ratio
(allowed by "any optional damage") pushes the gauge above `MAXGAUGE`. -/
theorem C4_counterexample :
    base.gauge ≤ MAXGAUGE ∧
    MAXGAUGE < ((update_grade base .MISS 0 (some (.GaugeDamage (-1)))).1).gauge := by
  constructor
  · norm_num [base, MAXGAUGE]
  · rw [update_grade_gauge_damage, update_grade_gauge_none]
    rw [show toIntTrunc ((MAXGAUGE : ℚ) * (-1)) = -512 by
      norm_num [toIntTrunc, MAXGAUGE]
      rw [show ((-512 : ℚ)) = ((-512 : ℤ) : ℚ) by norm_num]
      exact Int.ceil_intCast _]
    show MAXGAUGE < base.gauge - (-512)
    norm_num [base, MAXGAUGE]

/-- C4 (amended): for every call whose damage ratio, if any, is nonnegative
(as all damages in the engine are), the gauge stays at most `MAXGAUGE`; and
the gauge has no lower bound (it can be driven below any value, so in
particular it may go negative). -/
theorem C4_gauge_cap_amended (p : Player) (g : Grade) (sd : ℚ)
    (dmg : Option Damage) (hg : p.gauge ≤ MAXGAUGE)
    (hd : ∀ r, dmg = some (.GaugeDamage r) → 0 ≤ r) :
    ((update_grade p g sd dmg).1).gauge ≤ MAXGAUGE ∧
    ∀ b : ℤ, ∃ q : Player, q.gauge ≤ MAXGAUGE ∧
      ((update_grade q .MISS 0 (some MISS_DAMAGE)).1).gauge < b := by
  have h30 : toIntTrunc ((MAXGAUGE : ℚ) * 0.059) = 30 := by
    norm_num [toIntTrunc, MAXGAUGE]
  constructor
  · have hle := update_grade_gauge_le p g sd hg
    rcases dmg with _ | dd
    · exact hle
    · rcases dd with r | _
      · have hq : (0 : ℚ) ≤ (MAXGAUGE : ℚ) * r :=
          mul_nonneg (by norm_num [MAXGAUGE]) (hd r rfl)
        have hr : 0 ≤ toIntTrunc ((MAXGAUGE : ℚ) * r) := by
          rw [toIntTrunc, if_pos hq]
          exact Int.le_floor.mpr (by exact_mod_cast hq)
        rw [update_grade_gauge_damage]
        linarith
      · rw [update_grade_gauge_death]
        calc min (((update_grade p g sd none).1).gauge) 0 ≤ 0 := min_le_right _ _
          _ ≤ MAXGAUGE := by norm_num [MAXGAUGE]
  · intro b
    refine ⟨{ base with gauge := min (b - 1) 0 }, ?_, ?_⟩
    · calc min (b - 1) 0 ≤ 0 := min_le_right _ _
        _ ≤ MAXGAUGE := by norm_num [MAXGAUGE]
    · rw [show (MISS_DAMAGE : Damage) = .GaugeDamage 0.059 from rfl,
        update_grade_gauge_damage, update_grade_gauge_none, h30]
      show min (b - 1) 0 - 30 < b
      linarith [min_le_left (b - 1) (0 : ℤ)]

/-- Witness for C4 (amended) at a concrete MISS with the standard damage. -/
theorem C4_gauge_cap_witness :
    ((update_grade base .MISS 0 (some MISS_DAMAGE)).1).gauge ≤ MAXGAUGE := by
  have h := C4_gauge_cap_amended base .MISS 0 (some MISS_DAMAGE) (by decide)
    (by intro r hr
        have h2 : MISS_DAMAGE = .GaugeDamage r := Option.some.inj hr
        rw [MISS_DAMAGE] at h2
        injection h2 with h3
        rw [← h3]
        norm_num)
  exact h.1

/-! ## C5: discrete release and multiplicity -/

/-- C5: a discrete release decrements the multiplicity (never below 0), the
lane is reported unpressed exactly when the multiplicity is 0 after the
event, and with two keys held releasing one leaves the lane logically
pressed. -/
theorem C5_release_multiplicity (p : Player) (lane : ℕ) :
    (0 < p.keymultiplicity lane →
      ((is_unpressed p lane false .Neutral).1).keymultiplicity lane
        = p.keymultiplicity lane - 1) ∧
    (p.keymultiplicity lane = 0 →
      ((is_unpressed p lane false .Neutral).1).keymultiplicity lane = 0) ∧
    ((is_unpressed p lane false .Neutral).2
      = (((is_unpressed p lane false .Neutral).1).keymultiplicity lane == 0)) ∧
    (p.keymultiplicity lane = 2 →
      (is_unpressed p lane false .Neutral).2 = false ∧
      key_pressed ((is_unpressed p lane false .Neutral).1) lane = true) := by
  by_cases hm : 0 < p.keymultiplicity lane
  · refine ⟨fun _ => ?_, fun h0 => ?_, ?_, fun h2 => ?_⟩
    · simp [is_unpressed, hm]
    · omega
    · simp [is_unpressed, hm]
    · constructor
      · simp [is_unpressed, hm, h2]
      · simp [is_unpressed, key_pressed, hm, h2]
  · have h0 : p.keymultiplicity lane = 0 := by omega
    refine ⟨fun h => absurd h hm, fun _ => ?_, ?_, fun h2 => by omega⟩
    · simp [is_unpressed, hm, h0]
    · simp [is_unpressed, hm, h0]

/-- Witness for C5 with multiplicity 2 on lane 5. -/
theorem C5_release_multiplicity_witness :
    (is_unpressed base2 5 false .Neutral).2 = false ∧
    key_pressed ((is_unpressed base2 5 false .Neutral).1) 5 = true :=
  (C5_release_multiplicity base2 5).2.2.2 (by decide)

/-! ## C9: conversions on non-object variants -/

/-- Counterexample to C9 as stated: `to_effect` and `with_object_lane`
return the value unchanged on a non-object variant instead of failing. -/
theorem C9_counterexample :
    ObjData.to_effect (ObjData.BGM 1) = some (ObjData.BGM 1) ∧
    ObjData.with_object_lane 2 (ObjData.BGM 1) = some (ObjData.BGM 1) := by
  decide

/-- C9 (amended): on a non-object variant `to_visible`, `to_invisible`,
`to_lnstart` and `to_lndone` fail loudly (`none` models the panic), while
`to_effect` and `with_object_lane` return the value unchanged. -/
theorem C9_conversions_amended (d : ObjData) (h : d.is_object = false)
    (lane : ℕ) :
    d.to_visible = none ∧ d.to_invisible = none ∧ d.to_lnstart = none ∧
    d.to_lndone = none ∧ d.to_effect = some d ∧
    d.with_object_lane lane = some d := by
  cases d <;> simp_all [ObjData.is_object, ObjData.to_visible,
    ObjData.to_invisible, ObjData.to_lnstart, ObjData.to_lndone,
    ObjData.to_effect, ObjData.with_object_lane]

/-- Witness for C9 (amended) at the `BGM` variant. -/
theorem C9_conversions_witness :
    (ObjData.BGM 1).to_visible = none ∧
    (ObjData.BGM 1).to_effect = some (ObjData.BGM 1) := by
  have h := C9_conversions_amended (ObjData.BGM 1) (by decide) 0
  exact ⟨h.1, h.2.2.2.2.1⟩

/-! ## C10: the grading assertions cannot fire -/

/-- C10: `update_grade_from_distance` and `update_grade_to_miss` always pass
a gauge damage (never instant death) to `update_grade`, whose `keepgoing`
result is then true, so the `assert!` in both can never fire. -/
theorem C10_grading_asserts (p : Player) (d : ℚ) (g : Grade) (sd r : ℚ) :
    (update_grade_from_distance p d).2 = true ∧
    (update_grade_to_miss p).2 = true ∧
    (grade_damage_of_dist |d|).2 ≠ some Damage.InstantDeath ∧
    (update_grade p g sd (some (Damage.GaugeDamage r))).2 = true ∧
    (update_grade p g sd none).2 = true := by
  refine ⟨?_, ?_, ?_, (update_grade_keepgoing p g sd).1 r,
    (update_grade_keepgoing p g sd).2.1⟩
  · rw [update_grade_from_distance_eq]
    rcases grade_damage_of_dist_shape |d| with h | ⟨r0, h⟩ <;> rw [h]
    · exact (update_grade_keepgoing p _ _).2.1
    · exact (update_grade_keepgoing p _ _).1 r0
  · rw [update_grade_to_miss, MISS_DAMAGE]
    exact (update_grade_keepgoing p _ _).1 _
  · rcases grade_damage_of_dist_shape |d| with h | ⟨r0, h⟩ <;> rw [h] <;> simp

/-! ## Helper lemmas about the tick phases -/

/-- Speed easing does not touch the reverse marker. -/
theorem speed_ease_reverse (p : Player) : (speed_ease p).reverse = p.reverse := by
  rcases hp : p.targetspeed with _ | t <;> simp [speed_ease, hp, apply_ite]

/-- Speed easing does not touch the object list. -/
theorem speed_ease_objs (p : Player) : (speed_ease p).objs = p.objs := by
  rcases hp : p.targetspeed with _ | t <;> simp [speed_ease, hp, apply_ite]

/-- Speed easing does not touch the `cur` index. -/
theorem speed_ease_cur (p : Player) : (speed_ease p).cur = p.cur := by
  rcases hp : p.targetspeed with _ | t <;> simp [speed_ease, hp, apply_ite]

/-- One step of the advance loop on an in-window object: the loop either
stops right there or proceeds to the rest of the window in some state. -/
theorem advance_loop_step (curtime : ℚ) (p : Player) (i : ℕ) (a : Obj)
    (rest : List Obj) (sounds : List SoundEff) (ha : a.loc.time ≤ curtime) :
    (∃ p1 s1, advance_loop curtime p i (a :: rest) sounds = .halt p1 s1) ∨
    (∃ p1 s1, advance_loop curtime p i (a :: rest) sounds =
      advance_loop curtime p1 (i + 1) rest s1) := by
  obtain ⟨aloc, adata⟩ := a
  cases adata with
  | SetBPM c =>
    by_cases hc : c = 0
    · subst hc
      exact Or.inl ⟨{ p with bpm := 0 }, sounds, by simp [advance_loop, ha]⟩
    · by_cases hneg : c < 0
      · exact Or.inr ⟨{ p with bpm := c, reverse := some aloc }, sounds,
          by simp [advance_loop, ha, hc, hneg]⟩
      · exact Or.inr ⟨{ p with bpm := c }, sounds,
          by simp [advance_loop, ha, hc, hneg]⟩
  | Visible lane sref =>
    by_cases hau : p.autoplay = true
    · rcases sref with _ | s
      · exact Or.inr ⟨(update_grade_from_distance p 0).1, sounds,
          by simp [advance_loop, ha, hau]⟩
      · exact Or.inr ⟨(update_grade_from_distance p 0).1,
          play_sound_if_nonzero sounds s false, by simp [advance_loop, ha, hau]⟩
    · exact Or.inr ⟨p, sounds, by simp [advance_loop, ha, hau]⟩
  | LNStart lane sref =>
    by_cases hau : p.autoplay = true
    · rcases sref with _ | s
      · exact Or.inr ⟨(update_grade_from_distance p 0).1, sounds,
          by simp [advance_loop, ha, hau]⟩
      · exact Or.inr ⟨(update_grade_from_distance p 0).1,
          play_sound_if_nonzero sounds s false, by simp [advance_loop, ha, hau]⟩
    · exact Or.inr ⟨p, sounds, by simp [advance_loop, ha, hau]⟩
  | BGM sref =>
    exact Or.inr ⟨p, play_sound_if_nonzero sounds sref true,
      by simp [advance_loop, ha]⟩
  | SetBGA layer bgaref =>
    exact Or.inr ⟨{ p with bga := fun l => if l = layer then bgaref else p.bga l },
      sounds, by simp [advance_loop, ha]⟩
  | _ => exact Or.inr ⟨p, sounds, by simp [advance_loop, ha]⟩

/-- If the advance window contains a `SetBPM(0)` object (all objects before
it being within the window), the advance loop stops. -/
theorem advance_loop_halt (curtime : ℚ) (o : Obj) (w2 : List Obj)
    (ho : o.data = .SetBPM 0) (hot : o.loc.time ≤ curtime) :
    ∀ (w1 : List Obj) (p : Player) (i : ℕ) (sounds : List SoundEff),
      (∀ o' ∈ w1, o'.loc.time ≤ curtime) →
      ∃ p1 s1, advance_loop curtime p i (w1 ++ o :: w2) sounds = .halt p1 s1 := by
  intro w1
  induction w1 with
  | nil =>
    intro p i sounds _
    obtain ⟨oloc, odata⟩ := o
    simp only at ho
    subst ho
    exact ⟨{ p with bpm := 0 }, sounds, by simp [advance_loop, hot]⟩
  | cons a w1 ih =>
    intro p i sounds hw1
    have ha : a.loc.time ≤ curtime := hw1 a (List.mem_cons_self a w1)
    rw [List.cons_append]
    rcases advance_loop_step curtime p i a (w1 ++ o :: w2) sounds ha with
      ⟨p1, s1, heq⟩ | ⟨p1, s1, heq⟩
    · exact ⟨p1, s1, heq⟩
    · rw [heq]
      exact ih p1 (i + 1) s1 (fun o' h => hw1 o' (List.mem_cons_of_mem a h))

/-- A window prefix holding no bomb on a pressed lane is skipped whole by
the bomb sweep. -/
theorem bomb_sweep_skip (rest : List Obj) :
    ∀ (w : List Obj) (p : Player) (thru : ℕ → Option ℕ) (sounds : List SoundEff),
      (∀ o' ∈ w, ∀ l s d, o'.data = .Bomb l s d → key_pressed p l = false) →
      bomb_sweep p thru (w ++ rest) sounds = bomb_sweep p thru rest sounds := by
  intro w
  induction w with
  | nil => intro p thru sounds _; rfl
  | cons a w ih =>
    intro p thru sounds h
    obtain ⟨aloc, adata⟩ := a
    have htail : ∀ o' ∈ w, ∀ l s d, o'.data = .Bomb l s d → key_pressed p l = false :=
      fun o' h' => h o' (List.mem_cons_of_mem _ h')
    cases adata with
    | Bomb lane sref damage =>
      have hk : key_pressed p lane = false :=
        h ⟨aloc, .Bomb lane sref damage⟩ (List.mem_cons_self _ _) lane sref damage rfl
      rw [List.cons_append]
      show bomb_sweep p thru (⟨aloc, .Bomb lane sref damage⟩ :: (w ++ rest)) sounds = _
      rw [show bomb_sweep p thru (⟨aloc, .Bomb lane sref damage⟩ :: (w ++ rest)) sounds
          = bomb_sweep p thru (w ++ rest) sounds by simp [bomb_sweep, hk]]
      exact ih p thru sounds htail
    | Visible lane sref =>
      rw [List.cons_append]
      exact (by simp [bomb_sweep] : bomb_sweep p thru (⟨aloc, .Visible lane sref⟩ :: (w ++ rest)) sounds = bomb_sweep p thru (w ++ rest) sounds).trans (ih p thru sounds htail)
    | Invisible lane sref =>
      rw [List.cons_append]
      exact (by simp [bomb_sweep] : bomb_sweep p thru (⟨aloc, .Invisible lane sref⟩ :: (w ++ rest)) sounds = bomb_sweep p thru (w ++ rest) sounds).trans (ih p thru sounds htail)
    | LNStart lane sref =>
      rw [List.cons_append]
      exact (by simp [bomb_sweep] : bomb_sweep p thru (⟨aloc, .LNStart lane sref⟩ :: (w ++ rest)) sounds = bomb_sweep p thru (w ++ rest) sounds).trans (ih p thru sounds htail)
    | LNDone lane sref =>
      rw [List.cons_append]
      exact (by simp [bomb_sweep] : bomb_sweep p thru (⟨aloc, .LNDone lane sref⟩ :: (w ++ rest)) sounds = bomb_sweep p thru (w ++ rest) sounds).trans (ih p thru sounds htail)
    | BGM sref =>
      rw [List.cons_append]
      exact (by simp [bomb_sweep] : bomb_sweep p thru (⟨aloc, .BGM sref⟩ :: (w ++ rest)) sounds = bomb_sweep p thru (w ++ rest) sounds).trans (ih p thru sounds htail)
    | SetBGA layer bgaref =>
      rw [List.cons_append]
      exact (by simp [bomb_sweep] : bomb_sweep p thru (⟨aloc, .SetBGA layer bgaref⟩ :: (w ++ rest)) sounds = bomb_sweep p thru (w ++ rest) sounds).trans (ih p thru sounds htail)
    | SetBPM c =>
      rw [List.cons_append]
      exact (by simp [bomb_sweep] : bomb_sweep p thru (⟨aloc, .SetBPM c⟩ :: (w ++ rest)) sounds = bomb_sweep p thru (w ++ rest) sounds).trans (ih p thru sounds htail)
    | Stop dur =>
      rw [List.cons_append]
      exact (by simp [bomb_sweep] : bomb_sweep p thru (⟨aloc, .Stop dur⟩ :: (w ++ rest)) sounds = bomb_sweep p thru (w ++ rest) sounds).trans (ih p thru sounds htail)
    | SetMeasureFactor f =>
      rw [List.cons_append]
      exact (by simp [bomb_sweep] : bomb_sweep p thru (⟨aloc, .SetMeasureFactor f⟩ :: (w ++ rest)) sounds = bomb_sweep p thru (w ++ rest) sounds).trans (ih p thru sounds htail)
    | Deleted =>
      rw [List.cons_append]
      exact (by simp [bomb_sweep] : bomb_sweep p thru (⟨aloc, .Deleted⟩ :: (w ++ rest)) sounds = bomb_sweep p thru (w ++ rest) sounds).trans (ih p thru sounds htail)
    | StopEnd =>
      rw [List.cons_append]
      exact (by simp [bomb_sweep] : bomb_sweep p thru (⟨aloc, .StopEnd⟩ :: (w ++ rest)) sounds = bomb_sweep p thru (w ++ rest) sounds).trans (ih p thru sounds htail)
    | MeasureBar =>
      rw [List.cons_append]
      exact (by simp [bomb_sweep] : bomb_sweep p thru (⟨aloc, .MeasureBar⟩ :: (w ++ rest)) sounds = bomb_sweep p thru (w ++ rest) sounds).trans (ih p thru sounds htail)
    | End =>
      rw [List.cons_append]
      exact (by simp [bomb_sweep] : bomb_sweep p thru (⟨aloc, .End⟩ :: (w ++ rest)) sounds = bomb_sweep p thru (w ++ rest) sounds).trans (ih p thru sounds htail)

/-! ## C6: `SetBPM(0)` stops the tick -/

/-- C6: when a `SetBPM(0)` object lies in this tick's advance window (every
object before it in the window as well), `tick` returns the stop result on
that same frame, whatever the remaining objects and pending events are. -/
theorem C6_setbpm_zero_stops (p : Player) (curtime : ℚ) (newloc : ObjLoc)
    (events : List (Input × InputState)) (mx ks : Bool)
    (w1 w2 : List Obj) (o : Obj)
    (hrev : p.reverse = none)
    (hsplit : p.objs.drop p.cur = w1 ++ o :: w2)
    (hw1 : ∀ o' ∈ w1, o'.loc.time ≤ curtime)
    (ho : o.data = .SetBPM 0)
    (hot : o.loc.time ≤ curtime) :
    (tick p curtime newloc events mx ks).keepgoing = false := by
  have h1 : (speed_ease p).reverse = none := (speed_ease_reverse p).trans hrev
  have h2 : (speed_ease p).objs = p.objs := speed_ease_objs p
  have h3 : (speed_ease p).cur = p.cur := speed_ease_cur p
  obtain ⟨p1, s1, heq⟩ := advance_loop_halt curtime o w2 ho hot w1 (speed_ease p)
    ((speed_ease p).cur) [] hw1
  simp only [tick]
  rw [h1]
  rw [show (speed_ease p).objs.drop (speed_ease p).cur = w1 ++ o :: w2 by
    rw [h2, h3]; exact hsplit]
  rw [heq]

/-- Witness for C6: a chart whose second frame crosses a `SetBPM(0)`. -/
theorem C6_setbpm_zero_stops_witness :
    (tick pC6 2 ⟨2, 2, 2, 2⟩ [] false false).keepgoing = false := by
  refine C6_setbpm_zero_stops pC6 2 ⟨2, 2, 2, 2⟩ [] false false [] [oEnd] oBpm0
    rfl rfl ?_ rfl ?_
  · intro o' h'
    exact absurd h' (List.not_mem_nil o')
  · norm_num [oBpm0]

/-! ## C7: the bomb sweep -/

/-- C7: during the bomb sweep, a bomb in a pressed lane (with no earlier
bomb of the window in a pressed lane) has the lane's hold reference
cleared, its sound played, and its damage applied; gauge damage lets the
sweep continue over the remaining window, while instant death clamps the
gauge to at most 0, snaps `cur` to the terminal position and stops without
processing the remaining window. -/
theorem C7_bomb_sweep (p : Player) (thru : ℕ → Option ℕ) (sounds : List SoundEff)
    (w1 w2 : List Obj) (o : Obj) (lane : ℕ) (sref : Option ℕ) (dmg : Damage)
    (ho : o.data = .Bomb lane sref dmg)
    (hp : key_pressed p lane = true)
    (h1 : ∀ o' ∈ w1, ∀ l s d, o'.data = .Bomb l s d → key_pressed p l = false) :
    (∀ r, dmg = .GaugeDamage r →
      bomb_sweep p thru (w1 ++ o :: w2) sounds =
        bomb_sweep ((update_grade_from_damage p dmg).1)
          (fun l => if l = lane then none else thru l) w2
          (match sref with
           | some s => play_sound sounds s false
           | none => sounds) ∧
      ((update_grade_from_damage p dmg).1).gauge =
        p.gauge - toIntTrunc ((MAXGAUGE : ℚ) * r)) ∧
    (dmg = .InstantDeath →
      bomb_sweep p thru (w1 ++ o :: w2) sounds =
        .halt { (update_grade_from_damage p dmg).1 with cur := findEndIndex p.objs }
          (match sref with
           | some s => play_sound sounds s false
           | none => sounds) ∧
      ((update_grade_from_damage p dmg).1).gauge ≤ 0) := by
  obtain ⟨oloc, odata⟩ := o
  simp only at ho
  subst ho
  rw [bomb_sweep_skip (⟨oloc, .Bomb lane sref dmg⟩ :: w2) w1 p thru sounds h1]
  constructor
  · rintro r rfl
    have hkeep : (update_grade_from_damage p (.GaugeDamage r)).2 = true := by
      rw [update_grade_from_damage]
      exact (update_grade_keepgoing p .MISS 0.0).1 r
    constructor
    · rcases sref with _ | s <;> simp [bomb_sweep, hp, hkeep]
    · rw [update_grade_from_damage, update_grade_gauge_damage,
        update_grade_gauge_none]
  · rintro rfl
    have hkeep : (update_grade_from_damage p .InstantDeath).2 = false := by
      rw [update_grade_from_damage]
      exact (update_grade_keepgoing p .MISS 0.0).2.2
    have hobjs : ((update_grade_from_damage p .InstantDeath).1).objs = p.objs := by
      rw [update_grade_from_damage]
      exact update_grade_objs p .MISS 0.0 _
    constructor
    · rcases sref with _ | s <;> simp [bomb_sweep, hp, hkeep, findEndIndex, hobjs]
    · rw [update_grade_from_damage, update_grade_gauge_death]
      exact min_le_right _ _

/-- Witness for C7: an instant-death bomb on a pressed lane, with one
non-bomb object before it and a further bomb behind it. -/
theorem C7_bomb_sweep_witness :
    bomb_sweep pBomb (fun _ => none) ([oX] ++ oB :: [oB2]) [] =
      .halt { (update_grade_from_damage pBomb .InstantDeath).1 with
              cur := findEndIndex pBomb.objs } (play_sound [] 5 false) ∧
    ((update_grade_from_damage pBomb .InstantDeath).1).gauge ≤ 0 := by
  have h := C7_bomb_sweep pBomb (fun _ => none) [] [oX] [oB2] oB 3 (some 5)
    .InstantDeath rfl (by decide) ?h1
  · exact ⟨(h.2 rfl).1, (h.2 rfl).2⟩
  · intro o' h' l s d hd
    rcases List.mem_singleton.mp h' with rfl
    exact absurd hd (by simp [oX])

/-! ## C8: the press-grading search -/

/-- Counterexample to C8 as stated: on this chart the search the claim
describes selects the unresolved LN-end at index 0, which lies within the
BAD cutoff, yet `process_press` leaves it unresolved and issues no grade
(the code excludes every LN-end after picking the nearest gradable
object). -/
theorem C8_counterexample :
    spec_press_gradable_search objsC8 0 0 (fun _ => false) 0 = some 0 ∧
    |((objAt objsC8 0).loc.vtime - 0) * 1| < BAD_CUTOFF ∧
    ((process_press objsC8 0 0 ⟨0, 0, 0, 0⟩ 1 base (fun _ => none) 0 []).1).nograding 0
      = false ∧
    ((process_press objsC8 0 0 ⟨0, 0, 0, 0⟩ 1 base (fun _ => none) 0 []).1).lastgrade
      = none := by
  refine ⟨rfl, ?_, rfl, rfl⟩
  show |((0 : ℚ) - 0) * 1| < BAD_CUTOFF
  norm_num [BAD_CUTOFF]

/-- C8 (amended): the search selects the nearest gradable object of the lane
with no further filtering; that single candidate is then graded by distance,
marked resolved, and (for an LN start) has a hold opened, only if it passes
the `checked`-boundary, unresolved and not-an-LN-end checks and lies within
the BAD cutoff; in particular an LN-end candidate, resolved or not, leaves
the state unchanged. -/
theorem C8_press_grading_amended (objs : List Obj) (curIdx checkedIdx : ℕ)
    (curloc : ObjLoc) (gf : ℚ) (p : Player) (thru : ℕ → Option ℕ) (lane : ℕ)
    (sounds : List SoundEff) (j : ℕ)
    (hj : findClosestOfType objs curIdx curloc.vtime
      (fun o => o.data.object_lane == some lane && o.data.is_gradable) = some j) :
    (checkedIdx ≤ j → p.nograding j = false →
     (objAt objs j).data.is_lndone = false →
     |((objAt objs j).loc.vtime - curloc.vtime) * gf| < BAD_CUTOFF →
      ((process_press objs curIdx checkedIdx curloc gf p thru lane sounds).1).nograding j
        = true ∧
      ((process_press objs curIdx checkedIdx curloc gf p thru lane sounds).1).lastgrade
        = some ((grade_damage_of_dist
            |((objAt objs j).loc.vtime - curloc.vtime) * gf|).1, p.now) ∧
      ((objAt objs j).data.is_lnstart = true →
        (process_press objs curIdx checkedIdx curloc gf p thru lane sounds).2.1 lane
          = some j)) ∧
    ((objAt objs j).data.is_lndone = true →
      (process_press objs curIdx checkedIdx curloc gf p thru lane sounds).1 = p ∧
      (process_press objs curIdx checkedIdx curloc gf p thru lane sounds).2.1 = thru) := by
  constructor
  · intro hc hng hld hcut
    simp only [process_press, hj]
    rw [if_pos ⟨hc, hng, hld⟩, if_pos hcut]
    refine ⟨?_, ?_, ?_⟩
    · rw [update_grade_from_distance_eq, update_grade_nograding]
      simp
    · rw [update_grade_from_distance_eq, update_grade_lastgrade]
    · intro hls
      simp [hls]
  · intro hld
    simp only [process_press, hj]
    rw [if_neg (by simp [hld])]
    exact ⟨rfl, rfl⟩

/-- Witness for C8 (amended): a visible note pressed dead-on. -/
theorem C8_press_grading_witness :
    ((process_press objsW 1 0 ⟨1, 1, 1, 1⟩ 1 base (fun _ => none) 3 []).1).nograding 0
      = true ∧
    ((process_press objsW 1 0 ⟨1, 1, 1, 1⟩ 1 base (fun _ => none) 3 []).1).lastgrade
      = some ((grade_damage_of_dist
          |((objAt objsW 0).loc.vtime - (⟨1, 1, 1, 1⟩ : ObjLoc).vtime) * 1|).1,
          base.now) := by
  have h := C8_press_grading_amended objsW 1 0 ⟨1, 1, 1, 1⟩ 1 base (fun _ => none)
    3 [] 0 rfl
  have h1 := h.1 (Nat.zero_le 0) rfl rfl (by
    show |((1 : ℚ) - 1) * 1| < BAD_CUTOFF
    norm_num [BAD_CUTOFF])
  exact ⟨h1.1, h1.2.1⟩

end Sonorous
